import Mathlib

/-!
Shallow embedding of the Quickbrush generation core
(`scripts/quickbrush-core.js`): the generation-mode resolver read off
`QuickbrushDialog._updateObject` together with
`WizzlethorpeAPI.canUseServerGeneration`, the reference-image picker cap,
the describe-then-render pipeline of `OpenAIClient` / `ImageGenerator`,
and the brokered `WizzlethorpeAPI.generate` error handling.

JavaScript conventions captured explicitly:
an optional string setting is falsy when absent or empty, and the
idiom `a || b` on strings picks `b` when `a` is falsy.
-/

namespace Quickbrush

/-- JS truthiness of an optional string value: `null`/`undefined` and `""` are falsy. -/
def truthyOpt : Option String → Bool
  | none => false
  | some s => !(s == "")

/-- The JS idiom `s || fallback` on strings: the fallback wins exactly when `s` is empty. -/
def jsOrStr (s fallback : String) : String :=
  if s == "" then fallback else s

/-- The JS idiom `o || fallback` where `o` may be `null` or a string. -/
def jsOrOpt (o : Option String) (fallback : String) : String :=
  match o with
  | none => fallback
  | some s => jsOrStr s fallback

/-- Snapshot of the account configuration read at the top of
`QuickbrushDialog._updateObject`: `isLinked` (token presence), the linked
account tier in cents, the locally configured OpenAI key setting, and the
`useServerMode` setting. -/
structure AccountState where
  linked : Bool
  tierCents : Nat
  localApiKey : Option String
  serverModePreferred : Bool
deriving DecidableEq

/-- `WizzlethorpeAPI.canUseServerGeneration`: false when no account record is
linked, otherwise `account.tierCents >= 500`. -/
def canUseServerGeneration (a : AccountState) : Bool :=
  a.linked && decide (500 ≤ a.tierCents)

/-- `const shouldUseAPI = isLinked && (canUseServer && useServerMode);` -/
def shouldUseAPI (a : AccountState) : Bool :=
  a.linked && (canUseServerGeneration a && a.serverModePreferred)

/-- `const shouldUseBYOKAPI = isLinked && !shouldUseAPI && openaiApiKey;` -/
def shouldUseBYOKAPI (a : AccountState) : Bool :=
  a.linked && !shouldUseAPI a && truthyOpt a.localApiKey

/-- `const shouldUseLocalBYOK = !isLinked && openaiApiKey;` -/
def shouldUseLocalBYOK (a : AccountState) : Bool :=
  !a.linked && truthyOpt a.localApiKey

/-- Outcome of the generation-mode decision in `_updateObject`: one of the
three strategies, one of the two configuration-error notifications, or the
silent fall-through in which no strategy applies and neither error branch
fires (the handler just returns). -/
inductive GenerationOutcome
  | serverPooled
  | serverBrokeredBYOK
  | localDirectBYOK
  | configErrorNoAccountNoKey
  | configErrorLinkedInsufficientTier
  | silentNoStrategy
deriving DecidableEq

/-- The generation-mode resolver: the strategy dispatch and, when no strategy
applies, the error-report branch of `_updateObject` (lines 955-966). -/
def resolveGenerationMode (a : AccountState) : GenerationOutcome :=
  if shouldUseAPI a then .serverPooled
  else if shouldUseBYOKAPI a then .serverBrokeredBYOK
  else if shouldUseLocalBYOK a then .localDirectBYOK
  else if !a.linked && !truthyOpt a.localApiKey then .configErrorNoAccountNoKey
  else if a.linked && !canUseServerGeneration a && !truthyOpt a.localApiKey then
    .configErrorLinkedInsufficientTier
  else .silentNoStrategy

/-- `QuickbrushDialog._pickReferenceImage`: the picker callback adds the chosen
path only while fewer than 4 reference images are present; otherwise it warns
and leaves the list unchanged. -/
def pickReferenceImage (refs : List String) (path : String) : List String :=
  if refs.length < 4 then refs ++ [path] else refs

end Quickbrush

namespace Quickbrush

/-- C1: applied to an account snapshot, the resolver returns ServerPooled when
linked with tier at least 500 cents and server mode preferred; returns
ServerBrokeredBYOK when linked with tier 0 and a local key present; returns
LocalDirectBYOK when unlinked with a local key present; and returns the
no-account-no-key configuration error when unlinked with no local key. -/
theorem resolveGenerationMode_cases (a : AccountState) :
    (a.linked = true → 500 ≤ a.tierCents → a.serverModePreferred = true →
      resolveGenerationMode a = .serverPooled) ∧
    (a.linked = true → a.tierCents = 0 → truthyOpt a.localApiKey = true →
      resolveGenerationMode a = .serverBrokeredBYOK) ∧
    (a.linked = false → truthyOpt a.localApiKey = true →
      resolveGenerationMode a = .localDirectBYOK) ∧
    (a.linked = false → truthyOpt a.localApiKey = false →
      resolveGenerationMode a = .configErrorNoAccountNoKey) := by
  refine ⟨?_, ?_, ?_, ?_⟩
  · intro h1 h2 h3
    simp [resolveGenerationMode, shouldUseAPI, canUseServerGeneration, h1, h2, h3]
  · intro h1 h2 h3
    simp [resolveGenerationMode, shouldUseAPI, shouldUseBYOKAPI,
      canUseServerGeneration, h1, h2, h3]
  · intro h1 h2
    simp [resolveGenerationMode, shouldUseAPI, shouldUseBYOKAPI, shouldUseLocalBYOK,
      canUseServerGeneration, h1, h2]
  · intro h1 h2
    simp [resolveGenerationMode, shouldUseAPI, shouldUseBYOKAPI, shouldUseLocalBYOK,
      canUseServerGeneration, h1, h2]

/-- C1 witness: the four resolver cases evaluated at the concrete snapshots
from the specification. -/
theorem resolveGenerationMode_cases_concrete :
    resolveGenerationMode ⟨true, 500, none, true⟩ = .serverPooled ∧
    resolveGenerationMode ⟨true, 0, some "x", true⟩ = .serverBrokeredBYOK ∧
    resolveGenerationMode ⟨false, 0, some "x", false⟩ = .localDirectBYOK ∧
    resolveGenerationMode ⟨false, 0, none, false⟩ = .configErrorNoAccountNoKey := by
  refine ⟨?_, ?_, ?_, ?_⟩
  · exact (resolveGenerationMode_cases ⟨true, 500, none, true⟩).1 rfl (by decide) rfl
  · exact (resolveGenerationMode_cases ⟨true, 0, some "x", true⟩).2.1 rfl rfl (by decide)
  · exact (resolveGenerationMode_cases ⟨false, 0, some "x", false⟩).2.2.1 rfl (by decide)
  · exact (resolveGenerationMode_cases ⟨false, 0, none, false⟩).2.2.2 rfl (by decide)

/-- C2: at the snapshot linked, tier 500 cents, no local key, server mode
disabled, none of the three strategies applies, yet neither configuration
error is reported: the handler falls through silently, contradicting the
inline comment stating that the remaining case is an error. -/
theorem resolveGenerationMode_silent_gap :
    shouldUseAPI ⟨true, 500, none, false⟩ = false ∧
    shouldUseBYOKAPI ⟨true, 500, none, false⟩ = false ∧
    shouldUseLocalBYOK ⟨true, 500, none, false⟩ = false ∧
    resolveGenerationMode ⟨true, 500, none, false⟩ = .silentNoStrategy := by
  decide

/-- C9: at most one of the three strategy flags is set for any snapshot; the
brokered flag forces the pooled flag false, and the local flag requires an
unlinked account while the other two require a linked one. -/
theorem strategy_flags_mutually_exclusive (a : AccountState) :
    (shouldUseAPI a).toNat + (shouldUseBYOKAPI a).toNat + (shouldUseLocalBYOK a).toNat ≤ 1 ∧
    (shouldUseBYOKAPI a && shouldUseAPI a) = false ∧
    (shouldUseLocalBYOK a && a.linked) = false ∧
    (shouldUseAPI a && !a.linked) = false ∧
    (shouldUseBYOKAPI a && !a.linked) = false := by
  obtain ⟨linked, tier, key, pref⟩ := a
  cases linked <;>
    simp [shouldUseAPI, shouldUseBYOKAPI, shouldUseLocalBYOK, canUseServerGeneration] <;>
    cases truthyOpt key <;>
    cases pref <;>
    cases hd : decide (500 ≤ tier) <;>
    simp_all

end Quickbrush

namespace Quickbrush

/-- Subject kind dispatched by `createGenerator`. -/
inductive SubjectKind
  | character
  | scene
  | creature
  | item
deriving DecidableEq

/-- `getDefaultContextPrompt` of the four `ImageGenerator` subclasses. -/
def getDefaultContextPrompt : SubjectKind → String
  | .character => "Generate a physical description of a character."
  | .scene => ""
  | .creature => "Generate a physical description of a creature."
  | .item => "Generate a physical description of the item."

/-- `getSystemPrompt` of the four `ImageGenerator` subclasses. -/
def getSystemPrompt : SubjectKind → String
  | .character => "You are a helpful assistant that creates short but detailed character descriptions based on the prompt provided and a general description of the character. Always give preference to the prompt over the general description (e.g., the prompt might ask them to wear a specific outfit or have a certain hairstyle while the general description describes them as typically wearing a different outfit). This will be used as a prompt for generating an image, so be as consistent and descriptive as possible. Include any relevant physical details that someone would need to accurately visualize the character. Focus on the physical description and do not include any names (even the character's name), personality traits, lore, etc."
  | .scene => "You are a helpful assistant that creates short but detailed scene descriptions based on the prompt provided and a general description of the scene. Always give preference to the prompt over the general description (e.g., the prompt might ask for a specific setting or time of day while the general description describes a different setting). This will be used as a prompt for generating an image, so be as consistent and descriptive as possible. Focus on the physical description and do not include any names, personality traits, lore, etc."
  | .creature => "You are a helpful assistant that creates short but detailed creature descriptions based on the prompt provided and a general description of the creature's appearance. Always give preference to the prompt over the general description (e.g., the prompt might ask them to have a specific feature or color while the general description describes them as typically having different features). This will be used as a prompt for generating an image, so be as consistent and descriptive as possible. Focus on the physical description and do not include any names (even the creature's name), personality traits, lore, etc."
  | .item => "You are a helpful assistant that creates short but detailed item descriptions based on the prompt provided and a general description of the item's appearance. Always give preference to the prompt over the general description (e.g., the prompt might ask for a specific material or design while the general description describes it as typically having different features). This will be used as a prompt for generating an image, so be as consistent and descriptive as possible. Only relate the physical description of the item and do not include any names (even of the item itself), lore, personality, etc."

/-- `getPrompt` of the four `ImageGenerator` subclasses: the deterministic
template wrapping the refined description into the final image prompt. -/
def getPrompt (kind : SubjectKind) (description : String) : String :=
  match kind with
  | .character => "Highly stylized digital concept art profile of " ++ description ++ ". Rendered in a fantasy-steampunk illustration style inspired by graphic novel and fantasy RPG character art with bold, clean line work, muted yet rich colors, and dramatic cel-shading. Facial features are expressive and detailed, with textured hair and stylized lighting that adds depth and mood. The background fades into negative space, as if the character is emerging from the page. The character is looking directly at the viewer. The background is white. The character is centered in the frame, with their head and shoulders fitting within the image."
  | .scene =>
    let specific := if description == "" then "" else " featuring " ++ description
    "Highly stylized digital concept art" ++ specific ++ ". Rendered in a fantasy illustration style inspired by graphic novel and fantasy RPG scene art with bold, clean line work, muted yet rich colors, and dramatic cel-shading. The background fades into negative space, as if the scene is emerging from the page. The scene is from a ground, first-person perspective, with a wide view of the environment. Focus on the physical description and do not include any names, personality traits, lore, etc. The background is white."
  | .creature => "Highly stylized digital concept art profile of " ++ description ++ ". Rendered in a fantasy illustration style inspired by graphic novel and fantasy RPG creature art with bold, clean line work, muted yet rich colors, and dramatic cel-shading. Facial features are expressive and detailed, with textured skin/fur/scales and stylized lighting that adds depth and mood. The background fades into negative space, as if the creature is emerging from the page. The creature is looking directly at the viewer. The background is white. The creature is centered in the frame, with their head and shoulders fitting within the image."
  | .item => "Highly stylized digital concept art of " ++ description ++ ". Rendered in a fantasy illustration style inspired by graphic novel and fantasy RPG item art with bold, clean line work, muted yet rich colors, and dramatic cel-shading. The item is detailed and textured, with stylized lighting that adds depth and mood. The background fades into negative space, as if the item is emerging from the page. The item is centered in the frame, fitting within the image with space around it. The background is white."

/-- `ImageGenerator._mapAspectRatioToSize`: fixed lookup with a `1024x1024`
fallback for unknown keys. -/
def mapAspectRatioToSize (aspectRatio : String) : String :=
  if aspectRatio == "square" then "1024x1024"
  else if aspectRatio == "landscape" then "1536x1024"
  else if aspectRatio == "portrait" then "1024x1536"
  else "1024x1024"

/-- Value of one base64 alphabet character, as consumed by `atob`. -/
def b64Val (c : Char) : Nat :=
  if 'A' ≤ c ∧ c ≤ 'Z' then c.toNat - 65
  else if 'a' ≤ c ∧ c ≤ 'z' then c.toNat - 71
  else if '0' ≤ c ∧ c ≤ '9' then c.toNat + 4
  else if c = '+' then 62
  else if c = '/' then 63
  else 0

/-- Base64 groups-of-four decoding step backing `atob`. -/
def atobChunks : List Char → List Nat
  | c1 :: c2 :: c3 :: c4 :: rest =>
    let n := b64Val c1 * 262144 + b64Val c2 * 4096 + b64Val c3 * 64 + b64Val c4
    n / 65536 :: n / 256 % 256 :: n % 256 :: atobChunks rest
  | [c1, c2, c3] =>
    let n := b64Val c1 * 4096 + b64Val c2 * 64 + b64Val c3
    [n / 1024, n / 4 % 256]
  | [c1, c2] =>
    let n := b64Val c1 * 64 + b64Val c2
    [n / 16]
  | _ => []

/-- The `atob`-plus-`charCodeAt` loop turning a base64 string into a byte
list, as performed when assembling multipart reference-image parts. -/
def atob (s : String) : List Nat :=
  atobChunks (s.data.filter (fun c => c ≠ '='))

/-- `base64Image.split(',')[1] || base64Image`: strip a data-URI prefix,
falling back to the whole string when there is no comma. -/
def extractBase64Data (s : String) : String :=
  jsOrStr ((s.splitOn ",").getD 1 "") s

/-- One binary part of a multipart form body: `formData.append(field, blob,
filename)` with the blob's mime type. -/
structure FormPart where
  field : String
  filename : String
  mime : String
  bytes : List Nat
deriving DecidableEq

/-- Network calls the generation pipeline can issue, with the payload each
carries. `chatRefine` records the four values embedded in the refinement
request: system prompt, long-form text, reference-image description, and
context prompt (the JSON envelope around them is a fixed wrapper). -/
inductive NetworkCall
  | chatDescribeImages (images : List String)
  | chatRefine (systemPrompt userText imageDescription contextPrompt : String)
  | imagesGenerations (model prompt size quality background : String) (n : Nat)
  | imagesEdits (fields : List (String × String)) (parts : List FormPart)
deriving DecidableEq

/-- Whether a call is an image-synthesis call (either endpoint). -/
def NetworkCall.toSynthesis : NetworkCall → Bool
  | .imagesGenerations _ _ _ _ _ _ => true
  | .imagesEdits _ _ => true
  | _ => false

/-- Image list carried by a reference-description call. -/
def NetworkCall.describedImages : NetworkCall → Option (List String)
  | .chatDescribeImages images => some images
  | _ => none

/-- Reference-image description embedded in a refinement call. -/
def NetworkCall.refineImageDescription : NetworkCall → Option String
  | .chatRefine _ _ d _ => some d
  | _ => none

/-- Size named by a synthesis call, in either body form. -/
def NetworkCall.sizeField : NetworkCall → Option String
  | .imagesGenerations _ _ s _ _ _ => some s
  | .imagesEdits fields _ => fields.lookup "size"
  | _ => none

/-- Response double for a chat-completions call: either the fetch/non-2xx
error thrown by `_chatCompletion`, or the parsed list of per-choice message
contents (`none` for a null content). -/
inductive ChatResult
  | fetchError (msg : String)
  | okChoices (choices : List (Option String))
deriving DecidableEq

/-- Response double for an image call: the thrown fetch error, or the parsed
body where the `b64_json` payload may be present or missing. -/
inductive ImageResult
  | fetchError (msg : String)
  | okB64 (b64 : Option String)
deriving DecidableEq

/-- The JS `String.prototype.trim`: strip leading and trailing whitespace.
Written over the character list so that it evaluates by reduction. -/
def jsTrim (s : String) : String :=
  ⟨((s.data.dropWhile Char.isWhitespace).reverse.dropWhile Char.isWhitespace).reverse⟩

/-- Sentinel used when no reference images exist or their description fails. -/
def noReferenceSentinel : String := "No reference images provided."

/-- The reference-image description step at the top of
`OpenAIClient.generateDescription`: when reference images are present it
issues a describe call; a thrown error or missing/falsy content is swallowed
and the sentinel kept. Returns the calls made and the resulting
`imageDescription`. -/
def imageDescriptionStep (referenceImages : List String) (oracle : ChatResult) :
    List NetworkCall × String :=
  if referenceImages.length > 0 then
    ([.chatDescribeImages referenceImages],
      match oracle with
      | .fetchError _ => noReferenceSentinel
      | .okChoices choices =>
        match choices.head? with
        | none => noReferenceSentinel
        | some content => jsOrOpt content noReferenceSentinel)
  else ([], noReferenceSentinel)

/-- `OpenAIClient.generateDescription`: reference-description step, then the
refinement call whose response must have a first choice and a non-empty
trimmed content; returns the calls made plus either the thrown error message
or the refined description. -/
def generateDescription (systemPrompt userText contextPrompt : String)
    (referenceImages : List String) (imgOracle refineOracle : ChatResult) :
    List NetworkCall × Except String String :=
  let step := imageDescriptionStep referenceImages imgOracle
  let calls := step.1 ++ [.chatRefine systemPrompt userText step.2 contextPrompt]
  match refineOracle with
  | .fetchError msg => (calls, .error msg)
  | .okChoices choices =>
    match choices.head? with
    | none => (calls, .error "No response from OpenAI API.")
    | some content =>
      let descriptionText := jsTrim (content.getD "")
      if descriptionText == "" then (calls, .error "Parsed description is empty.")
      else (calls, .ok descriptionText)

/-- `const contextPrompt = prompt || this.getDefaultContextPrompt();` in
`ImageGenerator.getDescription`. -/
def effectiveContextPrompt (kind : SubjectKind) (prompt : Option String) : String :=
  jsOrOpt prompt (getDefaultContextPrompt kind)

/-- `ImageGenerator.getDescription`: resolve the context prompt and delegate
to the client with the kind's system prompt. -/
def getDescription (kind : SubjectKind) (text : String) (prompt : Option String)
    (referenceImages : List String) (imgOracle refineOracle : ChatResult) :
    List NetworkCall × Except String String :=
  generateDescription (getSystemPrompt kind) text (effectiveContextPrompt kind prompt)
    referenceImages imgOracle refineOracle

/-- `OpenAIClient._imageEdit` request assembly: the six string fields, then
one `image/png` binary part per reference image, named `reference_<i>.png`,
holding the decoded base64 payload. -/
def imageEditCall (prompt : String) (referenceImages : List String)
    (model size quality background : String) : NetworkCall :=
  .imagesEdits
    [("model", model), ("prompt", prompt), ("size", size), ("quality", quality),
      ("background", background), ("n", "1")]
    (referenceImages.enum.map fun p =>
      { field := "image", filename := "reference_" ++ toString p.1 ++ ".png",
        mime := "image/png", bytes := atob (extractBase64Data p.2) })

/-- The single request issued by `OpenAIClient.generateImage`: the multipart
edits request when reference images are present, else the JSON generations
body with `n: 1`. -/
def clientImageCall (prompt : String) (referenceImages : List String)
    (model size quality background : String) : NetworkCall :=
  if referenceImages.length > 0 then
    imageEditCall prompt referenceImages model size quality background
  else
    .imagesGenerations model prompt size quality background 1

/-- `OpenAIClient.generateImage` result handling: a thrown fetch error or a
missing `b64_json` payload is an error, otherwise the base64 image. -/
def clientGenerateImage (prompt : String) (referenceImages : List String)
    (model size quality background : String) (oracle : ImageResult) :
    NetworkCall × Except String String :=
  (clientImageCall prompt referenceImages model size quality background,
    match oracle with
    | .fetchError msg => .error msg
    | .okB64 none => .error "No image data returned from OpenAI API."
    | .okB64 (some b64) => .ok b64)

/-- The synthesis call built by `ImageGenerator.generateImage`: aspect ratio
mapped to a size, the kind's prompt template applied, background defaulted to
`transparent` by the client. -/
def generatorImageCall (kind : SubjectKind) (description : String)
    (referenceImages : List String) (model quality aspectRatio : String) : NetworkCall :=
  clientImageCall (getPrompt kind description) referenceImages model
    (mapAspectRatioToSize aspectRatio) quality "transparent"

/-- `ImageGenerator.generateImage` with its response handling. -/
def generatorGenerateImage (kind : SubjectKind) (description : String)
    (referenceImages : List String) (model quality aspectRatio : String)
    (oracle : ImageResult) : NetworkCall × Except String String :=
  clientGenerateImage (getPrompt kind description) referenceImages model
    (mapAspectRatioToSize aspectRatio) quality "transparent" oracle

/-- The local-BYOK branch of `QuickbrushDialog._updateObject`: refine the
description (aborting on its error), then issue the synthesis call. Returns
every network call made and the final base64 image or error. -/
def localPipeline (kind : SubjectKind) (text : String) (prompt : Option String)
    (referenceImages : List String) (model quality aspectRatio : String)
    (imgOracle refineOracle : ChatResult) (imageOracle : ImageResult) :
    List NetworkCall × Except String String :=
  let step := getDescription kind text prompt referenceImages imgOracle refineOracle
  match step.2 with
  | .error msg => (step.1, .error msg)
  | .ok refinedDescription =>
    let synth := generatorGenerateImage kind refinedDescription referenceImages
      model quality aspectRatio imageOracle
    (step.1 ++ [synth.1], synth.2)

/-- Parsed body of a brokered `/api/generate` response, restricted to the
fields the error path reads. -/
structure BrokerBody where
  error : Option String
  message : Option String
deriving DecidableEq

/-- What `WizzlethorpeAPI.generate` does with a response: return the body, or
throw a plain `Error` carrying only a message string. -/
inductive GenerateResult
  | success (data : BrokerBody)
  | thrownError (message : String)
deriving DecidableEq

/-- `WizzlethorpeAPI.generate`: missing token throws; a non-2xx response
throws an `Error` whose message is the server message when present, with a
per-discriminant fallback for `subscription_required` and `quota_exceeded`
and a generic fallback otherwise. -/
def wizzlethorpeGenerate (token : Option String) (ok : Bool) (data : BrokerBody) :
    GenerateResult :=
  if !truthyOpt token then .thrownError "No Wizzlethorpe account linked"
  else if ok then .success data
  else if data.error = some "subscription_required" then
    .thrownError (jsOrOpt data.message "Subscription required for this feature")
  else if data.error = some "quota_exceeded" then
    .thrownError (jsOrOpt data.message "Weekly quota exceeded")
  else .thrownError (jsOrOpt data.message "Generation failed")

end Quickbrush

namespace Quickbrush

/-- The reference-description step never issues a synthesis call. -/
lemma imageDescriptionStep_no_synthesis (refs : List String) (o : ChatResult) :
    (imageDescriptionStep refs o).1.any NetworkCall.toSynthesis = false := by
  unfold imageDescriptionStep
  by_cases h : refs.length > 0 <;> simp [h, NetworkCall.toSynthesis]

/-- Folding the picker keeps a list within the cap it starts under. -/
lemma pickReferenceImage_foldl_le (paths : List String) :
    ∀ refs : List String, refs.length ≤ 4 →
      (paths.foldl pickReferenceImage refs).length ≤ 4 := by
  induction paths with
  | nil => intro refs h; simpa using h
  | cons p ps ih =>
    intro refs h
    simp only [List.foldl_cons]
    apply ih
    by_cases hlen : refs.length < 4
    · simp [pickReferenceImage, hlen]
      omega
    · simpa [pickReferenceImage, hlen] using h

/-- A pipeline run driven with five reference images and successful oracles. -/
def oversizedRun : List NetworkCall × Except String String :=
  localPipeline .character "an orc warlord" none ["r1", "r2", "r3", "r4", "r5"]
    "gpt-image-1-mini" "high" "square"
    (.okChoices [some "five reference images"]) (.okChoices [some "an orc"])
    (.okB64 (some "QUJD"))

/-- C3 counterexample: a request carrying five reference images is not
rejected: the pipeline issues the describe call with all five images, issues
a synthesis call, and completes, so network calls are made for an oversized
request. -/
theorem oversizedRequest_still_calls :
    oversizedRun.1.head?.bind NetworkCall.describedImages =
      some ["r1", "r2", "r3", "r4", "r5"] ∧
    oversizedRun.1.any NetworkCall.toSynthesis = true ∧
    oversizedRun.2.toOption = some "QUJD" := by
  decide

/-- C3 amended: the cap of 4 is enforced at selection time instead: the
picker adds an image only while fewer than 4 are present, so any reference
list assembled through the picker from an empty start stays within 4. -/
theorem referenceImageCap_at_picker (paths : List String) :
    (paths.foldl pickReferenceImage []).length ≤ 4 :=
  pickReferenceImage_foldl_le paths [] (by simp)

/-- C4: when the refinement response's first choice trims to the empty
string, the pipeline fails with the empty-description error and issues no
image-synthesis call. -/
theorem emptyRefinement_aborts (kind : SubjectKind) (text : String)
    (prompt : Option String) (refs : List String)
    (model quality aspectRatio : String) (imgOracle : ChatResult)
    (content : Option String) (restChoices : List (Option String))
    (imageOracle : ImageResult)
    (h : jsTrim (content.getD "") = "") :
    (localPipeline kind text prompt refs model quality aspectRatio imgOracle
        (.okChoices (content :: restChoices)) imageOracle).2 =
      .error "Parsed description is empty." ∧
    (localPipeline kind text prompt refs model quality aspectRatio imgOracle
        (.okChoices (content :: restChoices)) imageOracle).1.any
      NetworkCall.toSynthesis = false := by
  constructor <;>
    simp [localPipeline, getDescription, generateDescription, h,
      imageDescriptionStep_no_synthesis, NetworkCall.toSynthesis]

/-- C4 witness: a whitespace-only refinement result at a concrete run. -/
theorem emptyRefinement_aborts_example :
    (localPipeline .creature "a dire wolf" none [] "gpt-image-1-mini" "low" "portrait"
        (.okChoices []) (.okChoices [some "   "]) (.okB64 (some "Zm9v"))).2 =
      .error "Parsed description is empty." ∧
    (localPipeline .creature "a dire wolf" none [] "gpt-image-1-mini" "low" "portrait"
        (.okChoices []) (.okChoices [some "   "]) (.okB64 (some "Zm9v"))).1.any
      NetworkCall.toSynthesis = false :=
  emptyRefinement_aborts .creature "a dire wolf" none [] "gpt-image-1-mini" "low"
    "portrait" (.okChoices []) (some "   ") [] (.okB64 (some "Zm9v")) (by decide)

/-- C5: when reference images are present and their description call throws,
the pipeline continues with the sentinel as the reference-image description
and completes successfully provided the refinement and synthesis calls
succeed: the full trace is the failed describe call, the refinement call
carrying the sentinel, and the synthesis call, with the image returned. -/
theorem referenceDescriptionFailure_isolated (kind : SubjectKind) (text : String)
    (prompt : Option String) (img : String) (rest : List String)
    (model quality aspectRatio errMsg : String) (content : Option String)
    (restChoices : List (Option String)) (b64 : String)
    (h : ¬ jsTrim (content.getD "") = "") :
    localPipeline kind text prompt (img :: rest) model quality aspectRatio
        (.fetchError errMsg) (.okChoices (content :: restChoices))
        (.okB64 (some b64)) =
      ([.chatDescribeImages (img :: rest),
        .chatRefine (getSystemPrompt kind) text noReferenceSentinel
          (effectiveContextPrompt kind prompt),
        generatorImageCall kind (jsTrim (content.getD "")) (img :: rest) model
          quality aspectRatio],
       .ok b64) := by
  simp [localPipeline, getDescription, generateDescription, imageDescriptionStep,
    generatorGenerateImage, clientGenerateImage, generatorImageCall, h]

/-- C5 witness: a concrete run whose reference-description call throws but
whose later calls succeed. -/
theorem referenceDescriptionFailure_isolated_example :
    localPipeline .item "a longsword" none ["ref1"] "gpt-image-1" "high" "square"
        (.fetchError "network down") (.okChoices [some "a steel longsword"])
        (.okB64 (some "aW1n")) =
      ([.chatDescribeImages ["ref1"],
        .chatRefine (getSystemPrompt .item) "a longsword" noReferenceSentinel
          (effectiveContextPrompt .item none),
        generatorImageCall .item "a steel longsword" ["ref1"] "gpt-image-1"
          "high" "square"],
       .ok "aW1n") :=
  referenceDescriptionFailure_isolated .item "a longsword" none "ref1" []
    "gpt-image-1" "high" "square" "network down" (some "a steel longsword") []
    "aW1n" (by decide)

/-- Whatever the arguments, the synthesis call names exactly the size it was
given, in either body form. -/
lemma clientImageCall_sizeField (prompt : String) (refs : List String)
    (model size quality background : String) :
    (clientImageCall prompt refs model size quality background).sizeField =
      some size := by
  unfold clientImageCall imageEditCall NetworkCall.sizeField
  by_cases h : refs.length > 0 <;> simp [h, List.lookup]

/-- C6: with reference images the synthesis request is a multipart body with
exactly one `image/png` binary part per image under the `image` part name, no
`image` string field, and `n` fixed at `"1"`; without reference images it is
the single JSON generations body with `n` fixed at 1. -/
theorem synthesisRequestShape (prompt : String) (refs : List String)
    (model size quality background : String) :
    (refs ≠ [] →
      (match clientImageCall prompt refs model size quality background with
        | .imagesEdits fields parts =>
          parts.length = refs.length ∧
          (∀ p ∈ parts, p.mime = "image/png" ∧ p.field = "image") ∧
          fields.lookup "image" = none ∧
          fields.lookup "n" = some "1"
        | _ => False)) ∧
    (refs = [] →
      clientImageCall prompt refs model size quality background =
        .imagesGenerations model prompt size quality background 1) := by
  constructor
  · intro hne
    obtain ⟨x, xs, rfl⟩ : ∃ y ys, refs = y :: ys := by
      cases refs with
      | nil => exact absurd rfl hne
      | cons y ys => exact ⟨y, ys, rfl⟩
    simp only [clientImageCall, imageEditCall, List.length_cons]
    simp [List.lookup, List.mem_map]
    rintro p i s - rfl
    exact ⟨rfl, rfl⟩
  · intro he
    subst he
    simp [clientImageCall]

/-- C6 witness: the multipart shape at a one-image request and the JSON shape
at a zero-image request. -/
theorem synthesisRequestShape_example :
    (match clientImageCall "p" ["imgdata"] "m" "1024x1024" "high" "transparent" with
      | .imagesEdits fields parts =>
        parts.length = (["imgdata"] : List String).length ∧
        (∀ p ∈ parts, p.mime = "image/png" ∧ p.field = "image") ∧
        fields.lookup "image" = none ∧
        fields.lookup "n" = some "1"
      | _ => False) ∧
    clientImageCall "p" [] "m" "1024x1024" "high" "transparent" =
      .imagesGenerations "m" "p" "1024x1024" "high" "transparent" 1 :=
  ⟨(synthesisRequestShape "p" ["imgdata"] "m" "1024x1024" "high" "transparent").1
      (by simp),
    (synthesisRequestShape "p" [] "m" "1024x1024" "high" "transparent").2 rfl⟩

/-- C7: the aspect-ratio table maps square, landscape and portrait to
1024x1024, 1536x1024 and 1024x1536, and the synthesis request built by the
generator carries exactly that size for every subject kind, description,
reference list, model and quality. -/
theorem aspectRatioSizeMapping (kind : SubjectKind) (description : String)
    (refs : List String) (model quality : String) :
    mapAspectRatioToSize "square" = "1024x1024" ∧
    mapAspectRatioToSize "landscape" = "1536x1024" ∧
    mapAspectRatioToSize "portrait" = "1024x1536" ∧
    (generatorImageCall kind description refs model quality "square").sizeField =
      some "1024x1024" ∧
    (generatorImageCall kind description refs model quality "landscape").sizeField =
      some "1536x1024" ∧
    (generatorImageCall kind description refs model quality "portrait").sizeField =
      some "1024x1536" := by
  refine ⟨rfl, rfl, rfl, ?_, ?_, ?_⟩ <;>
    exact clientImageCall_sizeField _ _ _ _ _ _

/-- C8 counterexample: a quota-exceeded broker response carrying a server
message produces an outcome identical to a generic failure with the same
message: both throw a plain error holding only the message string, so no
typed distinction survives. -/
theorem quotaError_indistinguishable :
    wizzlethorpeGenerate (some "tok") false ⟨some "quota_exceeded", some "Boom"⟩ =
      wizzlethorpeGenerate (some "tok") false ⟨some "server_error", some "Boom"⟩ ∧
    wizzlethorpeGenerate (some "tok") false ⟨some "quota_exceeded", some "Boom"⟩ =
      .thrownError "Boom" := by
  decide

/-- C8 amended: the brokered client branches on the discriminants and throws
an error whose message is the server message when present, with the fixed
fallback messages for quota-exceeded and subscription-required; the thrown
errors are plain message-only errors rather than distinct typed classes. -/
theorem brokerErrorMessages (token : String) (message : Option String)
    (h : ¬ token = "") :
    wizzlethorpeGenerate (some token) false ⟨some "quota_exceeded", message⟩ =
      .thrownError (jsOrOpt message "Weekly quota exceeded") ∧
    wizzlethorpeGenerate (some token) false ⟨some "subscription_required", message⟩ =
      .thrownError (jsOrOpt message "Subscription required for this feature") := by
  constructor <;> simp [wizzlethorpeGenerate, truthyOpt, h]

/-- C8 amended witness: a server-provided quota message is retained, and the
subscription branch at the same message. -/
theorem brokerErrorMessages_example :
    wizzlethorpeGenerate (some "tok") false
        ⟨some "quota_exceeded", some "Weekly limit reached"⟩ =
      .thrownError "Weekly limit reached" ∧
    wizzlethorpeGenerate (some "tok") false
        ⟨some "subscription_required", some "Weekly limit reached"⟩ =
      .thrownError "Weekly limit reached" :=
  brokerErrorMessages "tok" (some "Weekly limit reached") (by decide)

/-- C10: the description step treats an empty-string context prompt exactly
like an absent one: both are replaced by the kind's default context prompt,
and the resulting calls and outcome coincide. -/
theorem emptyContextPrompt_default (kind : SubjectKind) (text : String)
    (refs : List String) (imgOracle refineOracle : ChatResult) :
    getDescription kind text (some "") refs imgOracle refineOracle =
      getDescription kind text none refs imgOracle refineOracle ∧
    effectiveContextPrompt kind (some "") = getDefaultContextPrompt kind ∧
    effectiveContextPrompt kind none = getDefaultContextPrompt kind := by
  refine ⟨?_, ?_, ?_⟩ <;>
    simp [getDescription, effectiveContextPrompt, jsOrOpt, jsOrStr]

end Quickbrush
